import Mathlib

/-!
Verification of the mcpo hot-reload subsystem
(`src/mcpo/utils/config_watcher.py` and the reload coordinator it drives).

Shallow embedding conventions:
* Time is measured in integer milliseconds; the source's `_debounce_delay = 0.5`
  seconds becomes `500`. `time.time()` values are `Int` so that a clock that
  moves backwards behaves exactly as the Python subtraction does.
* A `pathlib` path that has been `.resolve()`d is determined by its parent
  directory and its final component, so a resolved path is embedded as the pair
  of those two strings.
* The cross-thread handoff (`asyncio.run_coroutine_threadsafe`) can raise; the
  source catches every exception from it.  The embedding passes the outcome in
  as a boolean `handoffOk` and models the `try/except` by returning normally in
  both cases.
-/

/-- A resolved (absolute, symlink-free) filesystem path, determined by its
parent directory and final name component, as `pathlib.Path.resolve` produces. -/
structure RPath where
  parent : String
  name : String
deriving DecidableEq, Repr

/-- The mutable state of `ConfigChangeHandler`: the resolved watched path,
`_last_modification` and `_debounce_delay` (milliseconds). -/
structure HandlerState where
  configPath : RPath
  lastModification : Int
  debounceDelay : Int
deriving DecidableEq, Repr

/-- `ConfigChangeHandler.__init__`: `_last_modification = 0`,
`_debounce_delay = 0.5` seconds = 500 ms. -/
def initHandlerState (p : RPath) : HandlerState :=
  { configPath := p, lastModification := 0, debounceDelay := 500 }

/-- A raw watchdog filesystem notification.  `moved` carries both the source
and the destination path; the handler inspects only the destination. -/
inductive FSEvent where
  | modified (srcPath : RPath) (isDirectory : Bool)
  | created (srcPath : RPath) (isDirectory : Bool)
  | moved (srcPath : RPath) (destPath : RPath) (isDirectory : Bool)
deriving DecidableEq, Repr

/-- The path-matching guard shared by `on_modified`, `on_moved` and
`on_created`: `event_path == self.config_path or (event_path.name ==
self.config_path.name and event_path.parent == self.config_path.parent)`. -/
def pathMatches (eventPath configPath : RPath) : Bool :=
  decide (eventPath = configPath) ||
    (decide (eventPath.name = configPath.name) &&
      decide (eventPath.parent = configPath.parent))

/-- The path the handler checks for an event: `dest_path` for moves,
`src_path` otherwise. -/
def eventPath : FSEvent → RPath
  | .modified p _ => p
  | .created p _ => p
  | .moved _ p _ => p

/-- The `is_directory` flag of the raw event. -/
def eventIsDir : FSEvent → Bool
  | .modified _ d => d
  | .created _ d => d
  | .moved _ _ d => d

/-- The handler's matching decision for an event (the boolean guard of each
`on_*` method, directory filtering aside). -/
def eventMatches (e : FSEvent) (configPath : RPath) : Bool :=
  pathMatches (eventPath e) configPath

/-- Modelled from the spec: the path-matching rule as §4.1 words it — an event
matches if its resolved path equals the watched file's resolved path, OR (for
moved/created events) its final path component and parent directory equal those
of the watched file.  Used only to compare against `eventMatches`, which is
translated from the source. -/
def specEventMatches (e : FSEvent) (configPath : RPath) : Prop :=
  match e with
  | .modified p _ => p = configPath
  | .created p _ =>
      p = configPath ∨ (p.name = configPath.name ∧ p.parent = configPath.parent)
  | .moved _ p _ =>
      p = configPath ∨ (p.name = configPath.name ∧ p.parent = configPath.parent)

/-- Outcome of one `_trigger_reload` call: the updated handler state, whether
the debounce check passed (a logical signal was emitted), and whether
`run_coroutine_threadsafe` succeeded (a reload task was scheduled). -/
structure TriggerResult where
  state : HandlerState
  emitted : Bool
  scheduled : Bool
deriving DecidableEq, Repr

/-- `ConfigChangeHandler._trigger_reload`.  If `now - _last_modification <
_debounce_delay` the event is discarded.  Otherwise `_last_modification := now`
and the handoff is attempted; an exception from the handoff is caught and
logged, so the call returns normally either way. -/
def triggerReload (s : HandlerState) (now : Int) (handoffOk : Bool) : TriggerResult :=
  if now - s.lastModification < s.debounceDelay then
    { state := s, emitted := false, scheduled := false }
  else
    { state := { s with lastModification := now }, emitted := true, scheduled := handoffOk }

/-- `ConfigChangeHandler.on_modified`. -/
def onModified (s : HandlerState) (srcPath : RPath) (isDirectory : Bool)
    (now : Int) (handoffOk : Bool) : TriggerResult :=
  if isDirectory then { state := s, emitted := false, scheduled := false }
  else if pathMatches srcPath s.configPath then triggerReload s now handoffOk
  else { state := s, emitted := false, scheduled := false }

/-- `ConfigChangeHandler.on_moved` (checks the destination path). -/
def onMoved (s : HandlerState) (destPath : RPath) (isDirectory : Bool)
    (now : Int) (handoffOk : Bool) : TriggerResult :=
  if isDirectory then { state := s, emitted := false, scheduled := false }
  else if pathMatches destPath s.configPath then triggerReload s now handoffOk
  else { state := s, emitted := false, scheduled := false }

/-- `ConfigChangeHandler.on_created`. -/
def onCreated (s : HandlerState) (srcPath : RPath) (isDirectory : Bool)
    (now : Int) (handoffOk : Bool) : TriggerResult :=
  if isDirectory then { state := s, emitted := false, scheduled := false }
  else if pathMatches srcPath s.configPath then triggerReload s now handoffOk
  else { state := s, emitted := false, scheduled := false }

/-- Dispatch of one raw event to the handler. -/
def handleEvent (s : HandlerState) (e : FSEvent) (now : Int) (handoffOk : Bool) :
    TriggerResult :=
  match e with
  | .modified p d => onModified s p d now handoffOk
  | .created p d => onCreated s p d now handoffOk
  | .moved _ p d => onMoved s p d now handoffOk

/-- Run a sequence of raw events (each with its arrival time and handoff
outcome) through the handler, counting the reload tasks scheduled. -/
def runEvents (s : HandlerState) : List (FSEvent × Int × Bool) → HandlerState × Nat
  | [] => (s, 0)
  | (e, now, ok) :: rest =>
    let r := handleEvent s e now ok
    let next := runEvents r.state rest
    (next.1, (if r.scheduled then 1 else 0) + next.2)

/-- A raw server-spec entry of the configuration file, with the fields the
validator inspects (`command`, `args`, `type`, `url`). -/
structure RawSpec where
  command : Option String
  args : List String
  typeField : Option String
  url : Option String
deriving DecidableEq, Repr

/-- Modelled from the spec: `validate_server_config` lives in `mcpo/main.py`,
which is not in this tree (only its tests are).  Per §3/§6 a spec is valid iff
it carries `command` (local/stdio variant) or both `type` and `url` (remote
variant); a remote spec lacking `url` is invalid. -/
def validateServerConfig (name : String) (spec : RawSpec) : Bool :=
  spec.command.isSome || (spec.typeField.isSome && spec.url.isSome)

/-- The application state the Reload Coordinator owns: the Mount Table
(service name to live sub-app handle, handles abstracted as numbers) and the
last-applied ConfigMap (`app.state.config_data`). -/
structure AppState where
  mounts : List (String × Nat)
  configData : List (String × RawSpec)
deriving DecidableEq, Repr

/-- Modelled from the spec: the Reload Coordinator's table construction
(`reload_config_handler` lives in `mcpo/main.py`, not in this tree).  Per §4.4
step 3–4: a retained name with a structurally unchanged spec keeps its existing
handle; a changed or added name gets a fresh handle from the external
`createSubApp` collaborator `mk`, whose failure aborts the whole build. -/
def buildMountTable (mk : String → RawSpec → Except String Nat) (st : AppState) :
    List (String × RawSpec) → Except String (List (String × Nat))
  | [] => Except.ok []
  | (n, spec) :: rest =>
    match buildMountTable mk st rest with
    | Except.error e => Except.error e
    | Except.ok t =>
      match List.lookup n st.configData, List.lookup n st.mounts with
      | some oldSpec, some hdl =>
        if oldSpec = spec then Except.ok ((n, hdl) :: t)
        else
          match mk n spec with
          | Except.error e => Except.error e
          | Except.ok v => Except.ok ((n, v) :: t)
      | _, _ =>
        match mk n spec with
        | Except.error e => Except.error e
        | Except.ok v => Except.ok ((n, v) :: t)

/-- Modelled from the spec: `reload(app, rawConfigBytes)` of §4.4
(`reload_config_handler` in `mcpo/main.py`, not in this tree), applied to the
already-parsed ConfigMap.  Every entry is validated first (any violation aborts
with no partial application); the new table is built, published as one step,
and only after that mutation succeeds is the stored last-applied ConfigMap
replaced; a construction failure rolls everything back. -/
def reloadConfigHandler (mk : String → RawSpec → Except String Nat)
    (st : AppState) (newCfg : List (String × RawSpec)) : AppState :=
  if newCfg.all (fun p => validateServerConfig p.1 p.2) then
    match buildMountTable mk st newCfg with
    | Except.ok table => { mounts := table, configData := newCfg }
    | Except.error _ => st
  else st

/-- Outcome of reading and parsing the config file inside
`_handle_config_change`: parsed contents, a `json.JSONDecodeError`, or a
`FileNotFoundError`. -/
inductive ReadResult where
  | ok (cfg : List (String × RawSpec))
  | jsonDecodeError
  | fileNotFound
deriving DecidableEq, Repr

/-- `ConfigChangeHandler._handle_config_change`, state part: read and parse the
file, then run the reload callback `cb`.  Every `except` arm only logs, so every
error leaves the application state untouched and the function returns normally
(nothing propagates to the hosting scheduler). -/
def handleConfigChange (st : AppState) (read : ReadResult)
    (cb : List (String × RawSpec) → AppState → Except String AppState) : AppState :=
  match read with
  | .jsonDecodeError => st
  | .fileNotFound => st
  | .ok cfg =>
    match cb cfg st with
    | Except.ok st2 => st2
    | Except.error _ => st

/-- The primitive actions `_handle_config_change` performs, in order. -/
inductive ReloadAction where
  | sleepDelay (d : Int)
  | readConfigFile
  | invokeCallback
deriving DecidableEq, Repr

/-- `ConfigChangeHandler._handle_config_change`, trace part: `await
asyncio.sleep(self._debounce_delay)` first, then the `open`/`json.load` of the
config file, then (when parsing succeeded) the reload callback. -/
def handleConfigChangeTrace (s : HandlerState) (read : ReadResult) :
    List ReloadAction :=
  match read with
  | .jsonDecodeError => [.sleepDelay s.debounceDelay, .readConfigFile]
  | .fileNotFound => [.sleepDelay s.debounceDelay, .readConfigFile]
  | .ok _ => [.sleepDelay s.debounceDelay, .readConfigFile, .invokeCallback]

/-- Lifecycle phase of the watchdog observer thread. -/
inductive ObsPhase where
  | running
  | stopRequested
  | exited
deriving DecidableEq, Repr

/-- `Observer.stop()`: sets the stop flag; the thread may still be finishing a
dispatch. -/
def observerStop : ObsPhase → ObsPhase := fun _ => .stopRequested

/-- `Observer.join()`: `threading.Thread.join` returns only once the thread
has fully exited, so its postcondition is phase `exited`. -/
def observerJoin : ObsPhase → ObsPhase := fun _ => .exited

/-- `ConfigWatcher` object state: resolved path, whether a loop handle was
captured, and the observer (absent until `start` creates it). -/
structure ConfigWatcher where
  configPath : RPath
  loopCaptured : Bool
  observer : Option ObsPhase
deriving DecidableEq, Repr

/-- `ConfigWatcher.start`, against an environment telling whether the watched
file exists and whether a running event loop is available.  A missing file or
missing loop is logged and the method returns without starting anything. -/
def watcherStart (w : ConfigWatcher) (fileExists : Bool) (loopRunning : Bool) :
    ConfigWatcher :=
  if !fileExists then w
  else if !loopRunning then w
  else { w with loopCaptured := true, observer := some .running }

/-- The whole hot-reload system: watcher object, handler state, application
state, and the count of reload tasks scheduled on the loop but not yet run. -/
structure SystemState where
  watcher : ConfigWatcher
  handler : HandlerState
  app : AppState
  pendingReloads : Nat
deriving DecidableEq, Repr

/-- Whether the observer thread can still dispatch events to the handler:
only while it exists and has not exited. -/
def observerCanDispatch (w : ConfigWatcher) : Bool :=
  match w.observer with
  | some .running => true
  | some .stopRequested => true
  | some .exited => false
  | none => false

/-- One raw event arriving at the system: dispatched to the handler only while
the observer thread is alive; a scheduled reload joins the pending set. -/
def dispatchEvent (sys : SystemState) (e : FSEvent) (now : Int) (handoffOk : Bool) :
    SystemState :=
  if observerCanDispatch sys.watcher then
    let r := handleEvent sys.handler e now handoffOk
    { sys with
        handler := r.state,
        pendingReloads := sys.pendingReloads + (if r.scheduled then 1 else 0) }
  else sys

/-- `ConfigWatcher.stop`: when an observer exists, `observer.stop()` then
`observer.join()`; already-scheduled reload tasks are not touched. -/
def watcherStop (sys : SystemState) : SystemState :=
  match sys.watcher.observer with
  | none => sys
  | some p =>
    { sys with
        watcher := { sys.watcher with observer := some (observerJoin (observerStop p)) } }

/-- Sample watched config file path used by concrete instances. -/
def samplePath : RPath := { parent := "/etc", name := "config.json" }

/-- A file in the watched directory with a different name. -/
def otherPath : RPath := { parent := "/etc", name := "other.txt" }

/-- A file with the watched name in a different directory. -/
def tmpPath : RPath := { parent := "/tmp", name := "config.json" }

/-- A freshly constructed handler watching `samplePath`. -/
def sampleHandler : HandlerState := initHandlerState samplePath

/-- A concrete valid local-command server spec. -/
def sampleSpec : RawSpec :=
  { command := some "echo", args := ["x"], typeField := none, url := none }

/-- A sub-app constructor that always succeeds. -/
def sampleConstructor : String → RawSpec → Except String Nat :=
  fun _ _ => Except.ok 1

/-- An application state with nothing mounted. -/
def appEmpty : AppState := { mounts := [], configData := [] }

/-- An application state whose Mount Table holds exactly the service "a". -/
def appA : AppState :=
  { mounts := [("a", 0)], configData := [("a", sampleSpec)] }

/-- A watcher object that has not been started. -/
def watcherFresh : ConfigWatcher :=
  { configPath := samplePath, loopCaptured := false, observer := none }

/-! ## Helper lemmas -/

theorem rpath_eq_of_parts {p w : RPath} (h1 : p.name = w.name)
    (h2 : p.parent = w.parent) : p = w := by
  cases p
  cases w
  simp_all

theorem pathMatches_eq_true_iff (p w : RPath) : pathMatches p w = true ↔ p = w := by
  constructor
  · intro h
    simp only [pathMatches, Bool.or_eq_true, Bool.and_eq_true, decide_eq_true_eq] at h
    rcases h with h | ⟨h1, h2⟩
    · exact h
    · exact rpath_eq_of_parts h1 h2
  · intro h
    simp [pathMatches, h]

theorem triggerReload_handoff_failed_scheduled (s : HandlerState) (now : Int) :
    (triggerReload s now false).scheduled = false := by
  unfold triggerReload
  split <;> rfl

/-! ## Claim theorems -/

/-- C1: on a matching event the Debounced Event Filter discards the event
when `now - lastTriggerTimestamp < debounceWindow`, with the timestamp left
unchanged; otherwise it sets the timestamp to `now` and emits exactly one
logical signal; and three raw modification events on the watched path spaced
50 ms apart (arriving from a settled state, handoff succeeding) produce
exactly one scheduled reload attempt. -/
theorem debounced_filter_correct (s : HandlerState) (now : Int) (ok : Bool) :
    (now - s.lastModification < s.debounceDelay →
      triggerReload s now ok = { state := s, emitted := false, scheduled := false }) ∧
    (¬ now - s.lastModification < s.debounceDelay →
      triggerReload s now ok =
        { state := { s with lastModification := now }, emitted := true,
          scheduled := ok }) ∧
    (runEvents (initHandlerState samplePath)
        [(FSEvent.modified samplePath false, 600, true),
         (FSEvent.modified samplePath false, 650, true),
         (FSEvent.modified samplePath false, 700, true)]).2
      = 1 := by
  refine ⟨fun h => ?_, fun h => ?_, by decide⟩
  · simp [triggerReload, h]
  · simp [triggerReload, h]

theorem debounced_filter_correct_witness :
    triggerReload sampleHandler 100 true
      = { state := sampleHandler, emitted := false, scheduled := false } :=
  (debounced_filter_correct sampleHandler 100 true).1 (by decide)

/-- C2: an event matches the watched file iff its resolved path equals the
watched file's resolved path or — for moved/created events — its final path
component and parent directory equal those of the watched file; in particular
a modified event whose resolved path differs from the watched path never
matches. -/
theorem event_matching_correct (e : FSEvent) (w : RPath) :
    (eventMatches e w = true ↔ specEventMatches e w) ∧
    (∀ p d, p ≠ w → eventMatches (FSEvent.modified p d) w = false) := by
  constructor
  · cases e with
    | modified p d =>
      simp only [eventMatches, eventPath, specEventMatches]
      exact pathMatches_eq_true_iff p w
    | created p d =>
      simp only [eventMatches, eventPath, specEventMatches]
      constructor
      · intro h
        exact Or.inl ((pathMatches_eq_true_iff p w).mp h)
      · intro h
        rcases h with h | ⟨h1, h2⟩
        · exact (pathMatches_eq_true_iff p w).mpr h
        · exact (pathMatches_eq_true_iff p w).mpr (rpath_eq_of_parts h1 h2)
    | moved q p d =>
      simp only [eventMatches, eventPath, specEventMatches]
      constructor
      · intro h
        exact Or.inl ((pathMatches_eq_true_iff p w).mp h)
      · intro h
        rcases h with h | ⟨h1, h2⟩
        · exact (pathMatches_eq_true_iff p w).mpr h
        · exact (pathMatches_eq_true_iff p w).mpr (rpath_eq_of_parts h1 h2)
  · intro p d hne
    have : pathMatches p w ≠ true := fun hc => hne ((pathMatches_eq_true_iff p w).mp hc)
    simpa [eventMatches, eventPath] using this

theorem event_matching_correct_witness :
    eventMatches (FSEvent.modified tmpPath false) samplePath = false :=
  (event_matching_correct (FSEvent.modified tmpPath false) samplePath).2
    tmpPath false (by decide)

/-- C9: a directory event, or an event whose path does not match the watched
file, is ignored: no signal is emitted, nothing is scheduled, and the handler
state — `lastModification` in particular — is unchanged. -/
theorem unrelated_event_frame (s : HandlerState) (e : FSEvent) (now : Int) (ok : Bool)
    (h : eventIsDir e = true ∨ eventMatches e s.configPath = false) :
    handleEvent s e now ok = { state := s, emitted := false, scheduled := false } := by
  cases e with
  | modified p d =>
    rcases h with h | h
    · simp only [eventIsDir] at h
      simp [handleEvent, onModified, h]
    · simp only [eventMatches, eventPath] at h
      cases d <;> simp [handleEvent, onModified, h]
  | created p d =>
    rcases h with h | h
    · simp only [eventIsDir] at h
      simp [handleEvent, onCreated, h]
    · simp only [eventMatches, eventPath] at h
      cases d <;> simp [handleEvent, onCreated, h]
  | moved q p d =>
    rcases h with h | h
    · simp only [eventIsDir] at h
      simp [handleEvent, onMoved, h]
    · simp only [eventMatches, eventPath] at h
      cases d <;> simp [handleEvent, onMoved, h]

theorem unrelated_event_frame_witness :
    handleEvent sampleHandler (FSEvent.modified otherPath false) 600 true
      = { state := sampleHandler, emitted := false, scheduled := false } :=
  unrelated_event_frame sampleHandler (FSEvent.modified otherPath false) 600 true
    (Or.inr (by decide))

/-- C10: a matching event that passes the debounce check updates
`lastModification` before the handoff is attempted and the update is not
rolled back when the handoff fails: the failed signal still consumes the
debounce window, so a later matching trigger within the window is discarded
even though no reload was scheduled for the failed signal. -/
theorem failed_handoff_consumes_window (s : HandlerState) (now now2 : Int) (ok2 : Bool)
    (h : ¬ now - s.lastModification < s.debounceDelay)
    (h2 : now2 - now < s.debounceDelay) :
    (triggerReload s now false).state.lastModification = now ∧
    (triggerReload s now false).scheduled = false ∧
    triggerReload (triggerReload s now false).state now2 ok2 =
      { state := (triggerReload s now false).state, emitted := false,
        scheduled := false } := by
  have hstate : (triggerReload s now false).state = { s with lastModification := now } := by
    simp [triggerReload, h]
  refine ⟨by simp [hstate], triggerReload_handoff_failed_scheduled s now, ?_⟩
  rw [hstate]
  simp [triggerReload, h2]

theorem failed_handoff_consumes_window_witness :
    (triggerReload sampleHandler 600 false).state.lastModification = 600 ∧
    (triggerReload sampleHandler 600 false).scheduled = false :=
  ⟨(failed_handoff_consumes_window sampleHandler 600 650 true
      (by decide) (by decide)).1,
   (failed_handoff_consumes_window sampleHandler 600 650 true
      (by decide) (by decide)).2.1⟩

theorem buildMountTable_keys (mk : String → RawSpec → Except String Nat) (st : AppState) :
    ∀ C : List (String × RawSpec),
      (∀ n s, (n, s) ∈ C → ∃ v, mk n s = Except.ok v) →
      ∃ t, buildMountTable mk st C = Except.ok t ∧ t.map Prod.fst = C.map Prod.fst := by
  intro C
  induction C with
  | nil => intro _; exact ⟨[], rfl, rfl⟩
  | cons p rest ih =>
    intro hmk
    obtain ⟨n, s⟩ := p
    obtain ⟨t, ht, hkeys⟩ := ih fun n2 s2 h2 => hmk n2 s2 (List.mem_cons_of_mem _ h2)
    obtain ⟨v, hv⟩ := hmk n s (List.mem_cons_self _ _)
    cases hc : List.lookup n st.configData with
    | none =>
      refine ⟨(n, v) :: t, ?_, ?_⟩
      · simp [buildMountTable, ht, hc, hv]
      · simp [hkeys]
    | some oldSpec =>
      cases hm : List.lookup n st.mounts with
      | none =>
        refine ⟨(n, v) :: t, ?_, ?_⟩
        · simp [buildMountTable, ht, hc, hm, hv]
        · simp [hkeys]
      | some hdl =>
        by_cases heq : oldSpec = s
        · refine ⟨(n, hdl) :: t, ?_, ?_⟩
          · simp [buildMountTable, ht, hc, hm, heq]
          · simp [hkeys]
        · refine ⟨(n, v) :: t, ?_, ?_⟩
          · simp [buildMountTable, ht, hc, hm, heq, hv]
          · simp [hkeys]

theorem handleEvent_handoff_failed_scheduled (s : HandlerState) (e : FSEvent) (now : Int) :
    (handleEvent s e now false).scheduled = false := by
  cases e <;>
    simp only [handleEvent, onModified, onCreated, onMoved] <;>
    split <;>
    first
      | rfl
      | (split <;> first | exact triggerReload_handoff_failed_scheduled _ _ | rfl)

/-- C3: for a ConfigMap `C` in which every entry validates (and the external
sub-app constructor succeeds on every entry), `reload` leaves the Mount
Table's key sequence exactly equal to `C`'s key sequence and replaces the
stored last-applied ConfigMap with `C`; when the mount-table construction
fails instead, the whole state — the last-applied ConfigMap included — is
left untouched, so the ConfigMap is replaced only after the mutation
succeeds. -/
theorem reload_applies_full_keyset (mk : String → RawSpec → Except String Nat)
    (st : AppState) (C : List (String × RawSpec))
    (hvalid : C.all (fun p => validateServerConfig p.1 p.2) = true) :
    ((∀ n s, (n, s) ∈ C → ∃ v, mk n s = Except.ok v) →
      (reloadConfigHandler mk st C).mounts.map Prod.fst = C.map Prod.fst ∧
      (reloadConfigHandler mk st C).configData = C) ∧
    (∀ msg, buildMountTable mk st C = Except.error msg →
      reloadConfigHandler mk st C = st) := by
  constructor
  · intro hmk
    obtain ⟨t, ht, hkeys⟩ := buildMountTable_keys mk st C hmk
    constructor
    · simp [reloadConfigHandler, hvalid, ht, hkeys]
    · simp [reloadConfigHandler, hvalid, ht]
  · intro msg hmsg
    simp [reloadConfigHandler, hvalid, hmsg]

theorem reload_applies_full_keyset_witness :
    (reloadConfigHandler sampleConstructor appEmpty [("a", sampleSpec)]).mounts.map
        Prod.fst = ["a"] ∧
    (reloadConfigHandler sampleConstructor appEmpty [("a", sampleSpec)]).configData
      = [("a", sampleSpec)] :=
  (reload_applies_full_keyset sampleConstructor appEmpty [("a", sampleSpec)]
      (by decide)).1 (fun n s _ => ⟨1, rfl⟩)

/-- C4: malformed JSON, a missing config file, and an exception from the
reload callback are all caught inside `_handle_config_change`, which returns
normally with the application state untouched — the previous Mount Table
stays authoritative; concretely, with current config mounting exactly "a", an
invalid-JSON reload attempt leaves the Mount Table containing exactly "a". -/
theorem recoverable_errors_contained (st : AppState) (cfg : List (String × RawSpec))
    (cb : List (String × RawSpec) → AppState → Except String AppState) (msg : String) :
    handleConfigChange st ReadResult.jsonDecodeError cb = st ∧
    handleConfigChange st ReadResult.fileNotFound cb = st ∧
    (cb cfg st = Except.error msg →
      handleConfigChange st (ReadResult.ok cfg) cb = st) ∧
    (handleConfigChange appA ReadResult.jsonDecodeError cb = appA ∧
      appA.mounts.map Prod.fst = ["a"]) := by
  refine ⟨rfl, rfl, fun h => ?_, rfl, rfl⟩
  simp [handleConfigChange, h]

theorem recoverable_errors_contained_witness :
    handleConfigChange appA (ReadResult.ok [])
        (fun _ _ => Except.error "boom") = appA :=
  (recoverable_errors_contained appA [] (fun _ _ => Except.error "boom")
      "boom").2.2.1 rfl

/-- C5: when the cross-thread handoff fails, `_trigger_reload` catches the
exception and returns normally: no reload task is scheduled, the pending-task
set and the application state (Mount Table and last-applied config) are
untouched, so the Mount Table stays consistent with the last successfully
applied config. -/
theorem handoff_failure_drops_signal (sys : SystemState) (e : FSEvent) (now : Int) :
    (dispatchEvent sys e now false).app = sys.app ∧
    (dispatchEvent sys e now false).pendingReloads = sys.pendingReloads ∧
    (handleEvent sys.handler e now false).scheduled = false := by
  refine ⟨?_, ?_, handleEvent_handoff_failed_scheduled sys.handler e now⟩
  · unfold dispatchEvent
    split <;> rfl
  · unfold dispatchEvent
    split
    · simp [handleEvent_handoff_failed_scheduled]
    · rfl

/-- C6: `ConfigWatcher.start` starts the filesystem observer iff the watched
file exists and a running event loop is available; in either failure case it
logs and returns with the watcher unchanged (no observer started, process
kept alive). -/
theorem watcher_start_iff (w : ConfigWatcher) (fileExists loopRunning : Bool)
    (hfresh : w.observer = none) :
    ((watcherStart w fileExists loopRunning).observer.isSome = true ↔
      fileExists = true ∧ loopRunning = true) ∧
    (fileExists = false ∨ loopRunning = false →
      watcherStart w fileExists loopRunning = w) := by
  cases fileExists <;> cases loopRunning <;> simp [watcherStart, hfresh]

theorem watcher_start_iff_witness :
    (watcherStart watcherFresh true true).observer.isSome = true ∧
    watcherStart watcherFresh false true = watcherFresh :=
  ⟨(watcher_start_iff watcherFresh true true rfl).1.mpr ⟨rfl, rfl⟩,
   (watcher_start_iff watcherFresh false true rfl).2 (Or.inl rfl)⟩

/-- C7: `ConfigWatcher.stop` calls `observer.stop()` then `observer.join()`,
which returns only once the observer thread has exited; afterwards the
observer can dispatch no event, so no reload can be newly scheduled from the
observer thread, while already-scheduled pending reload tasks are left to
finish. -/
theorem stop_blocks_until_exit (sys : SystemState) (e : FSEvent) (now : Int)
    (ok : Bool) :
    observerCanDispatch (watcherStop sys).watcher = false ∧
    (watcherStop sys).pendingReloads = sys.pendingReloads ∧
    dispatchEvent (watcherStop sys) e now ok = watcherStop sys := by
  have h1 : observerCanDispatch (watcherStop sys).watcher = false := by
    cases hobs : sys.watcher.observer with
    | none => simp [watcherStop, hobs, observerCanDispatch]
    | some p => simp [watcherStop, hobs, observerCanDispatch, observerJoin, observerStop]
  refine ⟨h1, ?_, ?_⟩
  · cases hobs : sys.watcher.observer <;> simp [watcherStop, hobs]
  · unfold dispatchEvent
    simp [h1]

/-- C8: `_handle_config_change` begins with `asyncio.sleep` of the debounce
window; the config-file read and the reload callback occur only at strictly
later positions of its action trace, and the read does occur. -/
theorem post_emit_delay_before_read (s : HandlerState) (read : ReadResult) :
    (handleConfigChangeTrace s read).head? =
      some (ReloadAction.sleepDelay s.debounceDelay) ∧
    ReloadAction.readConfigFile ∈ handleConfigChangeTrace s read ∧
    (∀ i, (handleConfigChangeTrace s read)[i]? =
      some ReloadAction.readConfigFile → 0 < i) ∧
    (∀ i, (handleConfigChangeTrace s read)[i]? =
      some ReloadAction.invokeCallback → 0 < i) := by
  cases read <;>
    refine ⟨rfl, by simp [handleConfigChangeTrace], ?_, ?_⟩ <;>
      (intro i h
       cases i with
        | zero => simp [handleConfigChangeTrace] at h
        | succ n => exact Nat.succ_pos n)

theorem post_emit_delay_before_read_witness :
    (handleConfigChangeTrace sampleHandler ReadResult.jsonDecodeError).head? =
      some (ReloadAction.sleepDelay sampleHandler.debounceDelay) ∧ 0 < 1 :=
  ⟨(post_emit_delay_before_read sampleHandler ReadResult.jsonDecodeError).1,
   (post_emit_delay_before_read sampleHandler ReadResult.jsonDecodeError).2.2.1 1 rfl⟩
